import Mathlib

/-!
Shallow embedding of the expander (turbine) cycle calculator.

The embedded code is the final app.js variant of the repository (the file
with inlet-specification modes pt/tsup, outlet-specification modes
pressure/tcond and three flow-specification modes mass/displacement/volume),
together with its phase/quality display helper formatPhase.  The external
CoolProp property library is modelled as an opaque deterministic oracle:
a function from a query (output key, two input key/value pairs, fluid name)
to an optional rational number, where none models a query that raises an
error inside the library.  JavaScript floating point numbers are modelled
as exact rationals; a NaN produced by parseFloat on a non-numeric form
field is modelled as Option.none on the corresponding input field.

Every evaluation step that issues oracle queries also returns the list of
queries it issued, in order, so that properties about when queries are
issued (before or after a validation) are statable.
-/

/-- Fluid category tabs of the UI: organic Rankine cycle fluids, steam, gas. -/
inductive Tab where
  | orc
  | steam
  | gas
deriving DecidableEq, Repr

/-- Inlet-specification modes: direct pressure/temperature, or saturation temperature plus superheat. -/
inductive InletMode where
  | pt
  | tsup
deriving DecidableEq, Repr

/-- Outlet-specification modes: direct pressure, or condensing temperature. -/
inductive OutletMode where
  | pressure
  | tcond
deriving DecidableEq, Repr

/-- Flow-specification modes: direct mass flow, displacement geometry, direct volumetric flow. -/
inductive FlowMode where
  | mass
  | displacement
  | volume
deriving DecidableEq, Repr

/-- CoolProp identifiers reachable from each tab, the values of the fluidMaps object. -/
def fluidMapValues : Tab → List String
  | Tab.orc => ["R245fa", "R134a", "Isobutane", "R1233ZDE", "R123"]
  | Tab.steam => ["Water"]
  | Tab.gas => ["Air", "CarbonDioxide", "Methane", "Nitrogen"]

/-- The 273.15 offset used to convert Celsius form inputs to Kelvin. -/
def kelvinOffset : ℚ := 273.15

/-- One PropsSI query: requested output key, two input key/value pairs, fluid name. -/
structure Query where
  out : String
  key1 : String
  val1 : ℚ
  key2 : String
  val2 : ℚ
  fluid : String
deriving DecidableEq, Repr

/-- The external property library, an opaque deterministic oracle.  A none
result models a PropsSI call that raises an error (state outside the valid
envelope, non-convergence, unknown fluid). -/
structure Oracle where
  propsSI : String → String → ℚ → String → ℚ → String → Option ℚ

/-- The form inputs read by handleCalculation.  Numeric fields are Option
rationals: none models a parseFloat result of NaN. -/
structure Inputs where
  tab : Tab
  fluidName : String
  inletMode : InletMode
  inletPressure_bar : Option ℚ
  inletTemperature_c : Option ℚ
  evapTemp_c : Option ℚ
  superheat_c : Option ℚ
  outletMode : OutletMode
  outletPressure_bar : Option ℚ
  condensingTemperature_c : Option ℚ
  isentropicEfficiency_percent : Option ℚ
  flowMode : FlowMode
  massFlow_kg_s : Option ℚ
  displacement_cm3 : Option ℚ
  rpm : Option ℚ
  volumetricEfficiency_percent : Option ℚ
  volumeFlowRate_m3h : Option ℚ
deriving DecidableEq, Repr

/-- The distinct throw sites of handleCalculation.  Each constructor stands
for one thrown Error message; pressureOrder carries the two pressures (in Pa)
interpolated into its message text, so the error names both pressures. -/
inductive CalcError where
  | invalidFluidTab (fluid : String) (tab : Tab)
  | invalidPT
  | invalidTsup
  | invalidOutletPressure
  | invalidCondTemp
  | invalidEfficiency
  | pressureOrder (p2_pa p1_pa : ℚ)
  | oracleFailure (q : Query)
  | invalidMassFlow
  | invalidDisplacementInput
  | nonpositiveDisplacement
  | invalidVolumeFlow
deriving DecidableEq, Repr

/-- The full set of values computed by one successful evaluation, before
display formatting: the three state points, the resolved mass flow, the
shaft power in W and the inlet volumetric flow in cubic metres per hour. -/
structure CycleResult where
  p1_pa : ℚ
  t1_k : ℚ
  h1 : ℚ
  s1 : ℚ
  v1 : ℚ
  phase1 : ℚ
  x1 : ℚ
  p2_pa : ℚ
  h2s : ℚ
  t2s_k : ℚ
  v2s : ℚ
  phase2s : ℚ
  x2s : ℚ
  h2a : ℚ
  t2a_k : ℚ
  s2a : ℚ
  v2a : ℚ
  phase2a : ℚ
  x2a : ℚ
  massFlow_kg_s : ℚ
  power_W : ℚ
  inletVolumeFlow_m3h : ℚ

/-- A fallible step together with the oracle queries it issued, in order. -/
def Step (α : Type) : Type := Except CalcError α × List Query

/-- Sequencing of fallible steps: on failure the error and the queries
issued so far are returned; on success the traces are concatenated. -/
def seqStep {α β : Type} (x : Step α) (f : α → Step β) : Step β :=
  match x with
  | (Except.error e, tr) => (Except.error e, tr)
  | (Except.ok a, tr) => ((f a).1, tr ++ (f a).2)

/-- One PropsSI call: records the query; a none answer becomes an oracleFailure error. -/
def runQuery (cp : Oracle) (out k1 : String) (a : ℚ) (k2 : String) (b : ℚ) (fl : String) : Step ℚ :=
  match cp.propsSI out k1 a k2 b fl with
  | some v => (Except.ok v, [⟨out, k1, a, k2, b, fl⟩])
  | none => (Except.error (CalcError.oracleFailure ⟨out, k1, a, k2, b, fl⟩), [⟨out, k1, a, k2, b, fl⟩])

/-- Inlet resolution of handleCalculation: in the gas tab or pt mode the
inlet pressure (bar, scaled by 1e5) and temperature (Celsius plus 273.15)
are taken from the form; in tsup mode the inlet pressure is the saturated
vapor pressure at the evaporation temperature (quality 1) and the inlet
temperature is the evaporation temperature plus the superheat. -/
def resolveInlet (cp : Oracle) (inp : Inputs) : Step (ℚ × ℚ) :=
  if inp.tab = Tab.gas ∨ inp.inletMode = InletMode.pt then
    match inp.inletPressure_bar, inp.inletTemperature_c with
    | some pb, some tc => (Except.ok (pb * 100000, tc + kelvinOffset), [])
    | _, _ => (Except.error CalcError.invalidPT, [])
  else
    match inp.evapTemp_c, inp.superheat_c with
    | some ec, some sh =>
        seqStep (runQuery cp "P" "T" (ec + kelvinOffset) "Q" 1 inp.fluidName) fun p =>
          (Except.ok (p, ec + kelvinOffset + sh), [])
    | _, _ => (Except.error CalcError.invalidTsup, [])

/-- Outlet-pressure resolution of handleCalculation: in the gas tab or
pressure mode the outlet pressure is the form value in bar scaled by 1e5;
in tcond mode it is the saturated liquid pressure (quality 0) at the
condensing temperature. -/
def resolveOutlet (cp : Oracle) (inp : Inputs) : Step ℚ :=
  if inp.tab = Tab.gas ∨ inp.outletMode = OutletMode.pressure then
    match inp.outletPressure_bar with
    | some pb => (Except.ok (pb * 100000), [])
    | none => (Except.error CalcError.invalidOutletPressure, [])
  else
    match inp.condensingTemperature_c with
    | some tc => runQuery cp "P" "T" (tc + kelvinOffset) "Q" 0 inp.fluidName
    | none => (Except.error CalcError.invalidCondTemp, [])

/-- Mass-flow resolution of handleCalculation, issuing no oracle queries:
direct mass flow must be a positive number; displacement mode converts the
displacement from cubic centimetres and the volumetric efficiency from
percent and requires all three inputs positive; direct volumetric flow
converts from cubic metres per hour and must be positive. -/
def resolveMassFlow (inp : Inputs) (v1 : ℚ) : Except CalcError ℚ :=
  match inp.flowMode with
  | FlowMode.mass =>
      match inp.massFlow_kg_s with
      | none => Except.error CalcError.invalidMassFlow
      | some m => if m ≤ 0 then Except.error CalcError.invalidMassFlow else Except.ok m
  | FlowMode.displacement =>
      match inp.displacement_cm3, inp.rpm, inp.volumetricEfficiency_percent with
      | some vg, some rp, some evp =>
          if vg ≤ 0 ∨ rp ≤ 0 ∨ evp / 100 ≤ 0 then Except.error CalcError.nonpositiveDisplacement
          else Except.ok (((vg / 1000000 * rp) / 60 * (evp / 100)) / v1)
      | _, _, _ => Except.error CalcError.invalidDisplacementInput
  | FlowMode.volume =>
      match inp.volumeFlowRate_m3h with
      | none => Except.error CalcError.invalidVolumeFlow
      | some vf =>
          if vf ≤ 0 then Except.error CalcError.invalidVolumeFlow
          else Except.ok ((vf / 3600) / v1)

/-- The state-point and flow calculations of handleCalculation, run after
all input validations passed: inlet properties at (P1, T1), isentropic
outlet at (P2, S1), actual outlet at (P2, H2a) with
H2a = H1 - (H1 - H2s) * eta, then the mass flow, the shaft power
massFlow * (H1 - H2a) and the inlet volumetric flow massFlow * v1 * 3600.
A quality query is only issued when the phase index equals 3 (two-phase);
otherwise the quality value is -1, exactly as in the source. -/
def stateCalc (cp : Oracle) (fl : String) (p1_pa t1_k p2_pa eta_s : ℚ) (inp : Inputs) :
    Step CycleResult :=
  seqStep (runQuery cp "H" "P" p1_pa "T" t1_k fl) fun h1 =>
  seqStep (runQuery cp "S" "P" p1_pa "T" t1_k fl) fun s1 =>
  seqStep (runQuery cp "D" "P" p1_pa "T" t1_k fl) fun d1 =>
  seqStep (runQuery cp "Phase" "P" p1_pa "T" t1_k fl) fun phase1 =>
  seqStep (if phase1 = 3 then runQuery cp "Q" "P" p1_pa "T" t1_k fl else (Except.ok (-1), [])) fun x1 =>
  seqStep (runQuery cp "H" "P" p2_pa "S" s1 fl) fun h2s =>
  seqStep (runQuery cp "T" "P" p2_pa "S" s1 fl) fun t2s =>
  seqStep (runQuery cp "D" "P" p2_pa "S" s1 fl) fun d2s =>
  seqStep (runQuery cp "Phase" "P" p2_pa "S" s1 fl) fun phase2s =>
  seqStep (if phase2s = 3 then runQuery cp "Q" "P" p2_pa "S" s1 fl else (Except.ok (-1), [])) fun x2s =>
  seqStep (runQuery cp "T" "P" p2_pa "H" (h1 - (h1 - h2s) * eta_s) fl) fun t2a =>
  seqStep (runQuery cp "S" "P" p2_pa "H" (h1 - (h1 - h2s) * eta_s) fl) fun s2a =>
  seqStep (runQuery cp "D" "P" p2_pa "H" (h1 - (h1 - h2s) * eta_s) fl) fun d2a =>
  seqStep (runQuery cp "Phase" "P" p2_pa "H" (h1 - (h1 - h2s) * eta_s) fl) fun phase2a =>
  seqStep (if phase2a = 3 then runQuery cp "Q" "P" p2_pa "H" (h1 - (h1 - h2s) * eta_s) fl else (Except.ok (-1), [])) fun x2a =>
  seqStep (resolveMassFlow inp (1 / d1), []) fun mdot =>
  (Except.ok
    { p1_pa := p1_pa
      t1_k := t1_k
      h1 := h1
      s1 := s1
      v1 := 1 / d1
      phase1 := phase1
      x1 := x1
      p2_pa := p2_pa
      h2s := h2s
      t2s_k := t2s
      v2s := 1 / d2s
      phase2s := phase2s
      x2s := x2s
      h2a := h1 - (h1 - h2s) * eta_s
      t2a_k := t2a
      s2a := s2a
      v2a := 1 / d2a
      phase2a := phase2a
      x2a := x2a
      massFlow_kg_s := mdot
      power_W := mdot * (h1 - (h1 - (h1 - h2s) * eta_s))
      inletVolumeFlow_m3h := mdot * (1 / d1) * 3600 }, [])

/-- The try-block body of handleCalculation: fluid/tab consistency check,
inlet resolution, outlet resolution, efficiency validation, pressure-order
validation, then the state-point and flow calculations. -/
def evaluate (cp : Oracle) (inp : Inputs) : Step CycleResult :=
  if inp.fluidName ∈ fluidMapValues inp.tab then
    seqStep (resolveInlet cp inp) fun p1t1 =>
    seqStep (resolveOutlet cp inp) fun p2_pa =>
    match inp.isentropicEfficiency_percent with
    | none => (Except.error CalcError.invalidEfficiency, [])
    | some ep =>
        if ep / 100 ≤ 0 ∨ 1 < ep / 100 then (Except.error CalcError.invalidEfficiency, [])
        else if p1t1.1 ≤ p2_pa then (Except.error (CalcError.pressureOrder p2_pa p1t1.1), [])
        else stateCalc cp inp.fluidName p1t1.1 p1t1.2 p2_pa (ep / 100) inp
  else (Except.error (CalcError.invalidFluidTab inp.fluidName inp.tab), [])

/-- Display value of one phase/quality table cell: either a numeric quality
or one of the non-numeric labels of formatPhase. -/
inductive QualityDisplay where
  | numericQuality (q : ℚ)
  | satLiquid
  | satVapor
  | subcooled
  | superheated
  | supercritical
  | supercriticalGas
  | supercriticalLiquid
  | notApplicable
  | dashes
deriving DecidableEq, Repr

/-- The formatPhase display helper: in the gas tab every cell shows the
not-applicable sentinel; otherwise the phase index selects a label, and in
the two-phase case (index 3) a quality within 1e-9 of 0 or of 1 is shown as
the saturated-liquid or saturated-vapor boundary label, any other quality
as a number; an unmapped phase index shows dashes. -/
def formatPhase (tab : Tab) (phaseIndex qualityValue : ℚ) : QualityDisplay :=
  if tab = Tab.gas then QualityDisplay.notApplicable
  else if phaseIndex = 0 then QualityDisplay.subcooled
  else if phaseIndex = 5 then QualityDisplay.superheated
  else if phaseIndex = 3 then
    if -1/1000000000 < qualityValue ∧ qualityValue < 1/1000000000 then QualityDisplay.satLiquid
    else if 1 - 1/1000000000 < qualityValue ∧ qualityValue < 1 + 1/1000000000 then QualityDisplay.satVapor
    else QualityDisplay.numericQuality qualityValue
  else if phaseIndex = 1 then QualityDisplay.supercritical
  else if phaseIndex = 2 then QualityDisplay.supercriticalGas
  else if phaseIndex = 4 then QualityDisplay.supercriticalLiquid
  else QualityDisplay.dashes

/-- One row of the results table, in display units: pressure in bar,
temperature in Celsius, enthalpy and entropy in kJ, specific volume, and
the phase/quality cell. -/
structure RowDisplay where
  p_bar : ℚ
  t_c : ℚ
  h_kj : ℚ
  s_kj : ℚ
  v : ℚ
  x : QualityDisplay

/-- The output cells of the page: the three summary fields and the three
state-point rows.  none models a cleared cell. -/
structure DisplayState where
  resultPower_kW : Option ℚ
  resultMassFlow : Option ℚ
  resultVolumeFlow : Option ℚ
  row1 : Option RowDisplay
  row2s : Option RowDisplay
  row2a : Option RowDisplay

/-- The display section of handleCalculation, writing every result cell in
the units used by the source: power over 1000, pressures over 1e5,
temperatures minus 273.15, enthalpies and entropies over 1000, and the
phase/quality cells through formatPhase.  The entropy cell of the
isentropic row shows s1, since s2s is held equal to s1. -/
def render (tab : Tab) (r : CycleResult) : DisplayState :=
  { resultPower_kW := some (r.power_W / 1000)
    resultMassFlow := some r.massFlow_kg_s
    resultVolumeFlow := some r.inletVolumeFlow_m3h
    row1 := some ⟨r.p1_pa / 100000, r.t1_k - kelvinOffset, r.h1 / 1000, r.s1 / 1000, r.v1,
      formatPhase tab r.phase1 r.x1⟩
    row2s := some ⟨r.p2_pa / 100000, r.t2s_k - kelvinOffset, r.h2s / 1000, r.s1 / 1000, r.v2s,
      formatPhase tab r.phase2s r.x2s⟩
    row2a := some ⟨r.p2_pa / 100000, r.t2a_k - kelvinOffset, r.h2a / 1000, r.s2a / 1000, r.v2a,
      formatPhase tab r.phase2a r.x2a⟩ }

/-- Status-bar outcome of one click of the calculate button. -/
inductive Status where
  | notReady
  | calcDone
  | calcError (e : CalcError)
deriving DecidableEq, Repr

/-- The whole handleCalculation handler: when the CoolProp handle is unset
the not-ready message is shown, no query is issued and the display is left
unchanged; otherwise the try-block body runs, and either every result cell
is written from the computed CycleResult, or the error is surfaced and the
display is left exactly as it was. -/
def handleCalculation (cp : Option Oracle) (inp : Inputs) (disp : DisplayState) :
    DisplayState × Status × List Query :=
  match cp with
  | none => (disp, Status.notReady, [])
  | some o =>
      match evaluate o inp with
      | (Except.ok r, tr) => (render inp.tab r, Status.calcDone, tr)
      | (Except.error e, tr) => (disp, Status.calcError e, tr)

/-- Success inversion for seqStep: a successful sequence means the first
step succeeded and the continuation succeeded on its value. -/
theorem seqStep_fst_ok {α β : Type} {x : Step α} {f : α → Step β} {b : β}
    (h : (seqStep x f).1 = Except.ok b) :
    ∃ a, x.1 = Except.ok a ∧ (f a).1 = Except.ok b := by
  rcases x with ⟨res, tr⟩
  cases res with
  | error e => simp [seqStep] at h
  | ok a => exact ⟨a, rfl, by simpa [seqStep] using h⟩

/-- Success inversion for runQuery: a successful query is exactly an oracle
answer of some v. -/
theorem runQuery_fst_ok {cp : Oracle} {out k1 k2 fl : String} {a b v : ℚ}
    (h : (runQuery cp out k1 a k2 b fl).1 = Except.ok v) :
    cp.propsSI out k1 a k2 b fl = some v := by
  cases hq : cp.propsSI out k1 a k2 b fl with
  | none => simp [runQuery, hq] at h
  | some w => simp [runQuery, hq] at h; simp [hq, h]

/-- Success inversion for stateCalc: a successful state calculation pins
down every field of the result: each property is the oracle's answer at the
query the source issues for it, H2a is the efficiency-adjusted enthalpy,
the mass flow comes from resolveMassFlow at the inlet specific volume, and
power and inlet volumetric flow are the products the source computes. -/
theorem stateCalc_ok {cp : Oracle} {fl : String} {p1 t1 p2 eta : ℚ} {inp : Inputs}
    {r : CycleResult}
    (h : (stateCalc cp fl p1 t1 p2 eta inp).1 = Except.ok r) :
    r.p1_pa = p1 ∧ r.t1_k = t1 ∧ r.p2_pa = p2 ∧
    cp.propsSI "H" "P" p1 "T" t1 fl = some r.h1 ∧
    cp.propsSI "S" "P" p1 "T" t1 fl = some r.s1 ∧
    (∃ d1, cp.propsSI "D" "P" p1 "T" t1 fl = some d1 ∧ r.v1 = 1 / d1) ∧
    cp.propsSI "Phase" "P" p1 "T" t1 fl = some r.phase1 ∧
    cp.propsSI "H" "P" p2 "S" r.s1 fl = some r.h2s ∧
    cp.propsSI "T" "P" p2 "S" r.s1 fl = some r.t2s_k ∧
    (∃ d2s, cp.propsSI "D" "P" p2 "S" r.s1 fl = some d2s ∧ r.v2s = 1 / d2s) ∧
    cp.propsSI "Phase" "P" p2 "S" r.s1 fl = some r.phase2s ∧
    r.h2a = r.h1 - (r.h1 - r.h2s) * eta ∧
    cp.propsSI "T" "P" p2 "H" r.h2a fl = some r.t2a_k ∧
    cp.propsSI "S" "P" p2 "H" r.h2a fl = some r.s2a ∧
    (∃ d2a, cp.propsSI "D" "P" p2 "H" r.h2a fl = some d2a ∧ r.v2a = 1 / d2a) ∧
    cp.propsSI "Phase" "P" p2 "H" r.h2a fl = some r.phase2a ∧
    resolveMassFlow inp r.v1 = Except.ok r.massFlow_kg_s ∧
    r.power_W = r.massFlow_kg_s * (r.h1 - r.h2a) ∧
    r.inletVolumeFlow_m3h = r.massFlow_kg_s * r.v1 * 3600 := by
  unfold stateCalc at h
  obtain ⟨h1v, hqH1, h⟩ := seqStep_fst_ok h
  obtain ⟨s1v, hqS1, h⟩ := seqStep_fst_ok h
  obtain ⟨d1v, hqD1, h⟩ := seqStep_fst_ok h
  obtain ⟨ph1v, hqP1, h⟩ := seqStep_fst_ok h
  obtain ⟨x1v, hqX1, h⟩ := seqStep_fst_ok h
  obtain ⟨h2sv, hqH2s, h⟩ := seqStep_fst_ok h
  obtain ⟨t2sv, hqT2s, h⟩ := seqStep_fst_ok h
  obtain ⟨d2sv, hqD2s, h⟩ := seqStep_fst_ok h
  obtain ⟨ph2sv, hqP2s, h⟩ := seqStep_fst_ok h
  obtain ⟨x2sv, hqX2s, h⟩ := seqStep_fst_ok h
  obtain ⟨t2av, hqT2a, h⟩ := seqStep_fst_ok h
  obtain ⟨s2av, hqS2a, h⟩ := seqStep_fst_ok h
  obtain ⟨d2av, hqD2a, h⟩ := seqStep_fst_ok h
  obtain ⟨ph2av, hqP2a, h⟩ := seqStep_fst_ok h
  obtain ⟨x2av, hqX2a, h⟩ := seqStep_fst_ok h
  obtain ⟨mdotv, hqMf, h⟩ := seqStep_fst_ok h
  simp only [Except.ok.injEq] at h
  subst h
  refine ⟨rfl, rfl, rfl, runQuery_fst_ok hqH1, runQuery_fst_ok hqS1,
    ⟨d1v, runQuery_fst_ok hqD1, rfl⟩, runQuery_fst_ok hqP1,
    runQuery_fst_ok hqH2s, runQuery_fst_ok hqT2s,
    ⟨d2sv, runQuery_fst_ok hqD2s, rfl⟩, runQuery_fst_ok hqP2s, rfl,
    runQuery_fst_ok hqT2a, runQuery_fst_ok hqS2a,
    ⟨d2av, runQuery_fst_ok hqD2a, rfl⟩, runQuery_fst_ok hqP2a, hqMf, rfl, rfl⟩

/-- Success inversion for evaluate: a successful evaluation means the fluid
belongs to the active tab, inlet and outlet resolved, the efficiency parsed
into (0, 1], the outlet pressure is strictly below the inlet pressure, and
the state calculation succeeded with those resolved values. -/
theorem evaluate_fst_ok {cp : Oracle} {inp : Inputs} {r : CycleResult}
    (h : (evaluate cp inp).1 = Except.ok r) :
    ∃ p1 t1 p2 ep,
      inp.fluidName ∈ fluidMapValues inp.tab ∧
      (resolveInlet cp inp).1 = Except.ok (p1, t1) ∧
      (resolveOutlet cp inp).1 = Except.ok p2 ∧
      inp.isentropicEfficiency_percent = some ep ∧
      ¬(ep / 100 ≤ 0 ∨ 1 < ep / 100) ∧
      p2 < p1 ∧
      (stateCalc cp inp.fluidName p1 t1 p2 (ep / 100) inp).1 = Except.ok r := by
  unfold evaluate at h
  by_cases hf : inp.fluidName ∈ fluidMapValues inp.tab
  · simp only [if_pos hf] at h
    obtain ⟨p1t1, hin, h⟩ := seqStep_fst_ok h
    obtain ⟨p2, hout, h⟩ := seqStep_fst_ok h
    cases he : inp.isentropicEfficiency_percent with
    | none => simp only [he] at h; simp at h
    | some ep =>
        simp only [he] at h
        by_cases heta : ep / 100 ≤ 0 ∨ 1 < ep / 100
        · simp only [if_pos heta] at h; simp at h
        · simp only [if_neg heta] at h
          by_cases hp : p1t1.1 ≤ p2
          · simp only [if_pos hp] at h; simp at h
          · simp only [if_neg hp] at h
            exact ⟨p1t1.1, p1t1.2, p2, ep, hf, by simpa using hin, hout, rfl, heta,
              lt_of_not_le hp, h⟩
  · simp only [if_neg hf] at h; simp at h

/-- The error thrown by the flow section of the source for the selected
flow mode when its numeric input is zero or negative: the message naming
the mass flow, the displacement/speed/volumetric-efficiency triple, or the
volumetric flow rate. -/
def flowModeError (inp : Inputs) : CalcError :=
  match inp.flowMode with
  | FlowMode.mass => CalcError.invalidMassFlow
  | FlowMode.displacement => CalcError.nonpositiveDisplacement
  | FlowMode.volume => CalcError.invalidVolumeFlow

/-- Some numeric input of the selected flow mode parsed to a number that is
zero or negative. -/
def nonpositiveFlowInput (inp : Inputs) : Prop :=
  match inp.flowMode with
  | FlowMode.mass => ∃ m, inp.massFlow_kg_s = some m ∧ m ≤ 0
  | FlowMode.displacement =>
      ∃ vg rp evp, inp.displacement_cm3 = some vg ∧ inp.rpm = some rp ∧
        inp.volumetricEfficiency_percent = some evp ∧ (vg ≤ 0 ∨ rp ≤ 0 ∨ evp ≤ 0)
  | FlowMode.volume => ∃ vf, inp.volumeFlowRate_m3h = some vf ∧ vf ≤ 0

/-- A zero-or-negative flow input of the selected mode is always rejected
by the flow-resolution step, with the error naming that mode's fields. -/
theorem resolveMassFlow_nonpositive {inp : Inputs} (hnp : nonpositiveFlowInput inp)
    (v1 : ℚ) : resolveMassFlow inp v1 = Except.error (flowModeError inp) := by
  unfold nonpositiveFlowInput at hnp
  cases hm : inp.flowMode with
  | mass =>
      rw [hm] at hnp
      obtain ⟨m, hmv, hle⟩ := hnp
      simp [resolveMassFlow, flowModeError, hm, hmv, hle]
  | displacement =>
      rw [hm] at hnp
      obtain ⟨vg, rp, evp, hvg, hrp, hevp, hle⟩ := hnp
      have hle2 : vg ≤ 0 ∨ rp ≤ 0 ∨ evp / 100 ≤ 0 := by
        rcases hle with h | h | h
        · exact Or.inl h
        · exact Or.inr (Or.inl h)
        · refine Or.inr (Or.inr ?_)
          rw [div_nonpos_iff]
          exact Or.inr ⟨h, by norm_num⟩
      simp [resolveMassFlow, flowModeError, hm, hvg, hrp, hevp, hle2]
  | volume =>
      rw [hm] at hnp
      obtain ⟨vf, hvf, hle⟩ := hnp
      simp [resolveMassFlow, flowModeError, hm, hvf, hle]

/-- Success inversion for resolveMassFlow in displacement mode. -/
theorem resolveMassFlow_displacement_ok {inp : Inputs} {v1 m : ℚ}
    (hm : inp.flowMode = FlowMode.displacement)
    (h : resolveMassFlow inp v1 = Except.ok m) :
    ∃ vg rp evp, inp.displacement_cm3 = some vg ∧ inp.rpm = some rp ∧
      inp.volumetricEfficiency_percent = some evp ∧
      m = ((vg / 1000000 * rp) / 60 * (evp / 100)) / v1 := by
  rcases hvg : inp.displacement_cm3 with _ | vg
  · simp [resolveMassFlow, hm, hvg] at h
  · rcases hrp : inp.rpm with _ | rp
    · simp [resolveMassFlow, hm, hvg, hrp] at h
    · rcases hevp : inp.volumetricEfficiency_percent with _ | evp
      · simp [resolveMassFlow, hm, hvg, hrp, hevp] at h
      · by_cases hle : vg ≤ 0 ∨ rp ≤ 0 ∨ evp / 100 ≤ 0
        · simp [resolveMassFlow, hm, hvg, hrp, hevp, hle] at h
        · simp [resolveMassFlow, hm, hvg, hrp, hevp, hle] at h
          exact ⟨vg, rp, evp, rfl, rfl, rfl, h.symm⟩

/-- Success inversion for resolveMassFlow in direct volumetric-flow mode. -/
theorem resolveMassFlow_volume_ok {inp : Inputs} {v1 m : ℚ}
    (hm : inp.flowMode = FlowMode.volume)
    (h : resolveMassFlow inp v1 = Except.ok m) :
    ∃ vf, inp.volumeFlowRate_m3h = some vf ∧ m = (vf / 3600) / v1 := by
  rcases hvf : inp.volumeFlowRate_m3h with _ | vf
  · simp [resolveMassFlow, hm, hvf] at h
  · by_cases hle : vf ≤ 0
    · simp [resolveMassFlow, hm, hvf, hle] at h
    · simp [resolveMassFlow, hm, hvf, hle] at h
      exact ⟨vf, rfl, h.symm⟩

/-- An oracle answering every query with the same constant value v. -/
def oracleConst (v : ℚ) : Oracle := ⟨fun _ _ _ _ _ _ => some v⟩

/-- The clearForm default inputs: steam tab, Water, 20 bar / 150 Celsius
inlet, 4 bar outlet, 85 percent efficiency, direct mass flow 1 kg per s. -/
def baseInputs : Inputs :=
  { tab := Tab.steam
    fluidName := "Water"
    inletMode := InletMode.pt
    inletPressure_bar := some 20
    inletTemperature_c := some 150
    evapTemp_c := some 120
    superheat_c := some 10
    outletMode := OutletMode.pressure
    outletPressure_bar := some 4
    condensingTemperature_c := some 30
    isentropicEfficiency_percent := some 85
    flowMode := FlowMode.mass
    massFlow_kg_s := some 1
    displacement_cm3 := some 500
    rpm := some 3000
    volumetricEfficiency_percent := some 90
    volumeFlowRate_m3h := some 100 }

/-- The result of evaluating baseInputs against the constant-2 oracle. -/
def baseResult : CycleResult :=
  { p1_pa := 2000000
    t1_k := 423.15
    h1 := 2
    s1 := 2
    v1 := 1 / 2
    phase1 := 2
    x1 := -1
    p2_pa := 400000
    h2s := 2
    t2s_k := 2
    v2s := 1 / 2
    phase2s := 2
    x2s := -1
    h2a := 2
    t2a_k := 2
    s2a := 2
    v2a := 1 / 2
    phase2a := 2
    x2a := -1
    massFlow_kg_s := 1
    power_W := 0
    inletVolumeFlow_m3h := 1800 }

/-- Evaluation of the base inputs against the constant-2 oracle succeeds
with baseResult. -/
theorem evaluate_base : (evaluate (oracleConst 2) baseInputs).1 = Except.ok baseResult := by
  norm_num [evaluate, resolveInlet, resolveOutlet, stateCalc, resolveMassFlow, seqStep,
    runQuery, oracleConst, baseInputs, baseResult, fluidMapValues, kelvinOffset]

/-- C10: before the oracle module's asynchronous initialization has
succeeded the handle is unset, and the evaluator refuses to run: it reports
the not-ready status, issues no oracle query, and leaves every displayed
output unchanged. -/
theorem c10_not_ready_guard (inp : Inputs) (disp : DisplayState) :
    handleCalculation none inp disp = (disp, Status.notReady, []) := rfl

/-- C9: evaluation is all-or-nothing: whenever any step of the try-block
body fails (input validation, the pressure-ordering check, or an oracle
query raising an error), no result cell or summary field is written — the
display is returned exactly as it was — and the error is surfaced as the
status instead of a partial result. -/
theorem c9_evaluation_all_or_nothing (cp : Oracle) (inp : Inputs) (disp : DisplayState)
    (e : CalcError) (h : (evaluate cp inp).1 = Except.error e) :
    handleCalculation (some cp) inp disp = (disp, Status.calcError e, (evaluate cp inp).2) := by
  rcases hev : evaluate cp inp with ⟨res, tr⟩
  rw [hev] at h
  have hres : res = Except.error e := h
  subst hres
  simp [handleCalculation, hev]

/-- C1: with the fluid consistent with the tab, both pressures resolved and
the efficiency valid, an outlet pressure greater than or equal to the inlet
pressure makes the evaluation fail with the domain error carrying both
pressures and no result is produced, while an outlet pressure strictly
below the inlet pressure passes this validation and the evaluation proceeds
to the state calculations. -/
theorem c1_outlet_below_inlet_validation (cp : Oracle) (inp : Inputs)
    (p1 t1 p2 ep : ℚ) (trI trO : List Query)
    (hf : inp.fluidName ∈ fluidMapValues inp.tab)
    (hin : resolveInlet cp inp = (Except.ok (p1, t1), trI))
    (hout : resolveOutlet cp inp = (Except.ok p2, trO))
    (he : inp.isentropicEfficiency_percent = some ep)
    (heta : ¬(ep / 100 ≤ 0 ∨ 1 < ep / 100)) :
    (p1 ≤ p2 → evaluate cp inp = (Except.error (CalcError.pressureOrder p2 p1), trI ++ trO)) ∧
    (p2 < p1 →
      (evaluate cp inp).1 = (stateCalc cp inp.fluidName p1 t1 p2 (ep / 100) inp).1 ∧
      (evaluate cp inp).2 = trI ++ trO ++ (stateCalc cp inp.fluidName p1 t1 p2 (ep / 100) inp).2) := by
  constructor
  · intro hp
    simp only [evaluate, if_pos hf, hin, hout, he, seqStep]
    rw [if_neg heta, if_pos hp]
    simp
  · intro hp
    have hple : ¬ p1 ≤ p2 := not_le.mpr hp
    refine ⟨?_, ?_⟩
    · simp only [evaluate, if_pos hf, hin, hout, he, seqStep]
      rw [if_neg heta, if_neg hple]
    · simp only [evaluate, if_pos hf, hin, hout, he, seqStep]
      rw [if_neg heta, if_neg hple]
      simp

/-- Inputs with the default pressures swapped: 4 bar inlet, 20 bar outlet. -/
def inpSwap : Inputs :=
  { baseInputs with inletPressure_bar := some 4, outletPressure_bar := some 20 }

/-- C1 witness: at the swapped pressures the evaluation fails with the
pressure-order error carrying both resolved pressures in Pa. -/
theorem c1_witness :
    evaluate (oracleConst 2) inpSwap = (Except.error (CalcError.pressureOrder 2000000 400000), []) := by
  have h := (c1_outlet_below_inlet_validation (oracleConst 2) inpSwap 400000 423.15 2000000 85 [] []
      (by norm_num [inpSwap, baseInputs, fluidMapValues])
      (by norm_num [resolveInlet, inpSwap, baseInputs, kelvinOffset])
      (by norm_num [resolveOutlet, inpSwap, baseInputs])
      rfl (by norm_num)).1 (by norm_num)
  simpa using h

/-- Default inputs switched to saturation-temperature inlet mode with a
zero efficiency percentage. -/
def inpTsupZeroEff : Inputs :=
  { baseInputs with inletMode := InletMode.tsup, isentropicEfficiency_percent := some 0 }

/-- C2 counterexample: with the inlet specified by saturation temperature
plus superheat and efficiency = 0, the evaluation is rejected for the
efficiency, yet a PropsSI saturation-pressure query has already been
issued — the efficiency is not rejected before any oracle query in every
inlet-specification mode. -/
theorem c2_counterexample :
    evaluate (oracleConst 2) inpTsupZeroEff =
      (Except.error CalcError.invalidEfficiency, [⟨"P", "T", 393.15, "Q", 1, "Water"⟩]) ∧
    (evaluate (oracleConst 2) inpTsupZeroEff).2 ≠ [] := by
  have hin : resolveInlet (oracleConst 2) inpTsupZeroEff =
      (Except.ok (2, 403.15), [⟨"P", "T", 393.15, "Q", 1, "Water"⟩]) := by
    norm_num [resolveInlet, seqStep, runQuery, oracleConst, inpTsupZeroEff, baseInputs,
      kelvinOffset, Query.mk.injEq]
    rintro (h | h) <;> exact absurd h (by decide)
  have hout : resolveOutlet (oracleConst 2) inpTsupZeroEff = (Except.ok 400000, []) := by
    norm_num [resolveOutlet, inpTsupZeroEff, baseInputs]
  have hfl : inpTsupZeroEff.fluidName = "Water" := rfl
  have htab : inpTsupZeroEff.tab = Tab.steam := rfl
  have heff : inpTsupZeroEff.isentropicEfficiency_percent = some 0 := rfl
  constructor <;> norm_num [evaluate, seqStep, hin, hout, hfl, htab, heff,
    fluidMapValues, Query.mk.injEq]

/-- C2 amended: when the inlet is specified directly by pressure and
temperature and the outlet directly by pressure (which the gas tab forces),
an efficiency outside (0, 1] is rejected with no oracle query issued and no
result produced; in the saturation-based inlet or outlet modes the
saturation-pressure lookup precedes the efficiency check. -/
theorem c2_efficiency_rejected_before_queries (cp : Oracle) (inp : Inputs) (ep : ℚ)
    (hmode : inp.tab = Tab.gas ∨ (inp.inletMode = InletMode.pt ∧ inp.outletMode = OutletMode.pressure))
    (he : inp.isentropicEfficiency_percent = some ep)
    (heta : ep / 100 ≤ 0 ∨ 1 < ep / 100) :
    (evaluate cp inp).2 = [] ∧ ∀ r, (evaluate cp inp).1 ≠ Except.ok r := by
  by_cases hf : inp.fluidName ∈ fluidMapValues inp.tab
  · have hIn : inp.tab = Tab.gas ∨ inp.inletMode = InletMode.pt := by
      rcases hmode with h | ⟨h, _⟩
      · exact Or.inl h
      · exact Or.inr h
    have hOut : inp.tab = Tab.gas ∨ inp.outletMode = OutletMode.pressure := by
      rcases hmode with h | ⟨_, h⟩
      · exact Or.inl h
      · exact Or.inr h
    rcases hp1 : inp.inletPressure_bar with _ | pb
    · constructor <;> simp [evaluate, resolveInlet, seqStep, hf, hIn, hp1]
    · rcases ht1 : inp.inletTemperature_c with _ | tc
      · constructor <;> simp [evaluate, resolveInlet, seqStep, hf, hIn, hp1, ht1]
      · rcases hp2 : inp.outletPressure_bar with _ | ob
        · constructor <;>
            simp [evaluate, resolveInlet, resolveOutlet, seqStep, hf, hIn, hOut, hp1, ht1, hp2]
        · constructor <;>
            simp [evaluate, resolveInlet, resolveOutlet, seqStep, hf, hIn, hOut, hp1, ht1, hp2,
              he, heta]
  · constructor <;> simp [evaluate, hf]

/-- Default inputs with an efficiency percentage above 100. -/
def inpBigEff : Inputs := { baseInputs with isentropicEfficiency_percent := some 150 }

/-- C2 witness: at 150 percent efficiency in direct pressure/temperature
modes the evaluation issues no oracle query. -/
theorem c2_witness : (evaluate (oracleConst 2) inpBigEff).2 = [] :=
  (c2_efficiency_rejected_before_queries (oracleConst 2) inpBigEff 150
    (Or.inr ⟨rfl, rfl⟩) rfl (by norm_num)).1

/-- C3: for every evaluation that passes validation, the actual outlet
enthalpy is H2a = H1 - eta * (H1 - H2s) with eta the efficiency fraction,
H1 the oracle enthalpy at the resolved inlet state and H2s the oracle
enthalpy at (outlet pressure, inlet entropy); and the actual outlet
temperature, entropy, specific volume (reciprocal of the queried density)
and phase are the oracle answers at (outlet pressure, H2a). -/
theorem c3_actual_outlet_state (cp : Oracle) (inp : Inputs) (r : CycleResult)
    (h : (evaluate cp inp).1 = Except.ok r) :
    ∃ ep, inp.isentropicEfficiency_percent = some ep ∧
      r.h2a = r.h1 - ep / 100 * (r.h1 - r.h2s) ∧
      cp.propsSI "H" "P" r.p1_pa "T" r.t1_k inp.fluidName = some r.h1 ∧
      cp.propsSI "H" "P" r.p2_pa "S" r.s1 inp.fluidName = some r.h2s ∧
      cp.propsSI "T" "P" r.p2_pa "H" r.h2a inp.fluidName = some r.t2a_k ∧
      cp.propsSI "S" "P" r.p2_pa "H" r.h2a inp.fluidName = some r.s2a ∧
      (∃ d, cp.propsSI "D" "P" r.p2_pa "H" r.h2a inp.fluidName = some d ∧ r.v2a = 1 / d) ∧
      cp.propsSI "Phase" "P" r.p2_pa "H" r.h2a inp.fluidName = some r.phase2a := by
  obtain ⟨p1, t1, p2, ep, hf, hin, hout, he, heta, hplt, hs⟩ := evaluate_fst_ok h
  obtain ⟨hr1, hr2, hr3, hH1, hS1, hD1, hPh1, hH2s, hT2s, hD2s, hPh2s, hh2a, hT2a, hS2a,
    hD2a, hPh2a, hmf, hpw, hvf⟩ := stateCalc_ok hs
  refine ⟨ep, he, ?_, ?_, ?_, ?_, ?_, ?_, ?_⟩
  · rw [hh2a]; ring
  · rw [hr1, hr2]; exact hH1
  · rw [hr3]; exact hH2s
  · rw [hr3]; exact hT2a
  · rw [hr3]; exact hS2a
  · rw [hr3]; exact hD2a
  · rw [hr3]; exact hPh2a

/-- C3 witness: the base inputs against the constant-2 oracle. -/
theorem c3_witness :
    baseResult.h2a = baseResult.h1 - 85 / 100 * (baseResult.h1 - baseResult.h2s) := by
  obtain ⟨ep, he, hrel, _⟩ := c3_actual_outlet_state (oracleConst 2) baseInputs baseResult
    evaluate_base
  have hep : ep = 85 := by
    have : some ep = some 85 := he.symm.trans rfl
    exact Option.some.inj this
  rw [hep] at hrel
  exact hrel

/-- C4: for every successful evaluation, in each of the three
flow-specification modes, the shaft power equals the resolved mass flow
times the actual enthalpy drop H1 - H2a, and the reported inlet volumetric
flow (a value in cubic metres per hour) equals the resolved mass flow times
the inlet specific volume — the factor 3600 being the per-second to
per-hour unit conversion. -/
theorem c4_power_and_volume_flow (cp : Oracle) (inp : Inputs) (r : CycleResult)
    (h : (evaluate cp inp).1 = Except.ok r) :
    r.power_W = r.massFlow_kg_s * (r.h1 - r.h2a) ∧
    r.inletVolumeFlow_m3h / 3600 = r.massFlow_kg_s * r.v1 ∧
    r.inletVolumeFlow_m3h = r.massFlow_kg_s * r.v1 * 3600 := by
  obtain ⟨p1, t1, p2, ep, hf, hin, hout, he, heta, hplt, hs⟩ := evaluate_fst_ok h
  obtain ⟨hr1, hr2, hr3, hH1, hS1, hD1, hPh1, hH2s, hT2s, hD2s, hPh2s, hh2a, hT2a, hS2a,
    hD2a, hPh2a, hmf, hpw, hvf⟩ := stateCalc_ok hs
  refine ⟨hpw, ?_, hvf⟩
  rw [hvf]; ring

/-- C4 witness: the base inputs against the constant-2 oracle. -/
theorem c4_witness :
    baseResult.power_W = baseResult.massFlow_kg_s * (baseResult.h1 - baseResult.h2a) ∧
    baseResult.inletVolumeFlow_m3h = baseResult.massFlow_kg_s * baseResult.v1 * 3600 := by
  obtain ⟨hp, _, hv⟩ := c4_power_and_volume_flow (oracleConst 2) baseInputs baseResult
    evaluate_base
  exact ⟨hp, hv⟩

/-- C5: for every successful evaluation, displacement-based flow resolves
the mass flow to displacement (cm3 to m3) times speed over 60 times the
volumetric-efficiency fraction, divided by the inlet specific volume, and
direct volumetric-flow mode to the flow rate over 3600 divided by the inlet
specific volume; in particular 500 cm3, 3000 rpm and 90 percent give
(500e-6 * 3000/60 * 0.90) / v1 exactly. -/
theorem c5_flow_mode_formulas (cp : Oracle) (inp : Inputs) (r : CycleResult)
    (h : (evaluate cp inp).1 = Except.ok r) :
    (inp.flowMode = FlowMode.displacement →
      ∃ vg rp evp, inp.displacement_cm3 = some vg ∧ inp.rpm = some rp ∧
        inp.volumetricEfficiency_percent = some evp ∧
        r.massFlow_kg_s = (vg / 1000000 * (rp / 60) * (evp / 100)) / r.v1) ∧
    (inp.flowMode = FlowMode.volume →
      ∃ vf, inp.volumeFlowRate_m3h = some vf ∧
        r.massFlow_kg_s = (vf / 3600) / r.v1) ∧
    (inp.flowMode = FlowMode.displacement → inp.displacement_cm3 = some 500 →
      inp.rpm = some 3000 → inp.volumetricEfficiency_percent = some 90 →
      r.massFlow_kg_s = (500 / 1000000 * (3000 / 60) * (90 / 100)) / r.v1) := by
  obtain ⟨p1, t1, p2, ep, hf, hin, hout, he, heta, hplt, hs⟩ := evaluate_fst_ok h
  obtain ⟨hr1, hr2, hr3, hH1, hS1, hD1, hPh1, hH2s, hT2s, hD2s, hPh2s, hh2a, hT2a, hS2a,
    hD2a, hPh2a, hmf, hpw, hvf⟩ := stateCalc_ok hs
  have hdisp : inp.flowMode = FlowMode.displacement →
      ∃ vg rp evp, inp.displacement_cm3 = some vg ∧ inp.rpm = some rp ∧
        inp.volumetricEfficiency_percent = some evp ∧
        r.massFlow_kg_s = (vg / 1000000 * (rp / 60) * (evp / 100)) / r.v1 := by
    intro hm
    obtain ⟨vg, rp, evp, hvg, hrp, hevp, hval⟩ := resolveMassFlow_displacement_ok hm hmf
    refine ⟨vg, rp, evp, hvg, hrp, hevp, ?_⟩
    rw [hval]; ring_nf
  refine ⟨hdisp, ?_, ?_⟩
  · intro hm
    obtain ⟨vf, hvf2, hval⟩ := resolveMassFlow_volume_ok hm hmf
    exact ⟨vf, hvf2, hval⟩
  · intro hm h500 h3000 h90
    obtain ⟨vg, rp, evp, hvg, hrp, hevp, hval⟩ := hdisp hm
    have e1 : vg = 500 := Option.some.inj (hvg.symm.trans h500)
    have e2 : rp = 3000 := Option.some.inj (hrp.symm.trans h3000)
    have e3 : evp = 90 := Option.some.inj (hevp.symm.trans h90)
    rw [e1, e2, e3] at hval
    exact hval

/-- Default inputs switched to displacement-based flow mode. -/
def inpDisp : Inputs := { baseInputs with flowMode := FlowMode.displacement }

/-- Result of evaluating inpDisp against the constant-2 oracle: the mass
flow is (500e-6 * 3000 / 60 * 0.9) / (1/2) = 0.045. -/
def dispResult : CycleResult :=
  { baseResult with
    massFlow_kg_s := 9 / 200
    power_W := 0
    inletVolumeFlow_m3h := 81 }

/-- Evaluation of the displacement-mode inputs against the constant-2
oracle succeeds with dispResult. -/
theorem evaluate_disp : (evaluate (oracleConst 2) inpDisp).1 = Except.ok dispResult := by
  norm_num [evaluate, resolveInlet, resolveOutlet, stateCalc, resolveMassFlow, seqStep,
    runQuery, oracleConst, inpDisp, baseInputs, baseResult, dispResult, fluidMapValues,
    kelvinOffset]

/-- C5 witness: the displacement-mode inputs with the defaults 500 cm3,
3000 rpm, 90 percent against the constant-2 oracle. -/
theorem c5_witness :
    dispResult.massFlow_kg_s = (500 / 1000000 * (3000 / 60) * (90 / 100)) / dispResult.v1 := by
  have h := (c5_flow_mode_formulas (oracleConst 2) inpDisp dispResult evaluate_disp).2.2
    rfl rfl rfl rfl
  exact h

/-- C6: whenever a numeric input of the selected flow mode is zero or
negative, no evaluation can produce a result, and the flow-resolution step
rejects with the domain error naming that mode's offending fields. -/
theorem c6_nonpositive_flow_rejected (cp : Oracle) (inp : Inputs)
    (hnp : nonpositiveFlowInput inp) :
    (∀ r, (evaluate cp inp).1 ≠ Except.ok r) ∧
    (∀ v1, resolveMassFlow inp v1 = Except.error (flowModeError inp)) := by
  refine ⟨?_, resolveMassFlow_nonpositive hnp⟩
  intro r h
  obtain ⟨p1, t1, p2, ep, hf, hin, hout, he, heta, hplt, hs⟩ := evaluate_fst_ok h
  obtain ⟨_, _, _, _, _, _, _, _, _, _, _, _, _, _, _, _, hmf, _, _⟩ := stateCalc_ok hs
  rw [resolveMassFlow_nonpositive hnp] at hmf
  exact absurd hmf (by simp)

/-- Default inputs with a zero mass flow. -/
def inpZeroMass : Inputs := { baseInputs with massFlow_kg_s := some 0 }

/-- C6 witness: a zero direct mass flow is rejected with the mass-flow
error. -/
theorem c6_witness :
    resolveMassFlow inpZeroMass (1 / 2) = Except.error CalcError.invalidMassFlow := by
  have h := (c6_nonpositive_flow_rejected (oracleConst 2) inpZeroMass
    ⟨0, rfl, le_refl 0⟩).2 (1 / 2)
  exact h

/-- Default inputs with a 100 percent isentropic efficiency. -/
def inpUnitEff : Inputs := { baseInputs with isentropicEfficiency_percent := some 100 }

/-- A deterministic oracle that answers every query with half of the second
input value. -/
def oracleHalf : Oracle := ⟨fun _ _ _ _ b _ => some (b / 2)⟩

/-- Unit-efficiency inputs whose inlet temperature gives exactly 400 K. -/
def inpHalf : Inputs :=
  { baseInputs with
    inletTemperature_c := some 126.85
    isentropicEfficiency_percent := some 100 }

/-- Result of evaluating inpHalf against oracleHalf: the inlet properties
are 400 / 2 = 200, the isentropic outlet ones 200 / 2 = 100, H2a = H2s =
100 at unit efficiency, but the actual outlet temperature is queried at
(P2, H = 100) and so answers 50, while T2s was queried at (P2, S = 200) and
answered 100. -/
def resHalf : CycleResult :=
  { p1_pa := 2000000
    t1_k := 400
    h1 := 200
    s1 := 200
    v1 := 1 / 200
    phase1 := 200
    x1 := -1
    p2_pa := 400000
    h2s := 100
    t2s_k := 100
    v2s := 1 / 100
    phase2s := 100
    x2s := -1
    h2a := 100
    t2a_k := 50
    s2a := 50
    v2a := 1 / 50
    phase2a := 50
    x2a := -1
    massFlow_kg_s := 1
    power_W := 100
    inletVolumeFlow_m3h := 18 }

/-- C7 counterexample: a deterministic oracle under which an evaluation at
efficiency 1 succeeds with H2a = H2s and yet T2a differs from T2s, because
the actual-outlet temperature is queried at (P2, H) and the isentropic one
at (P2, S), and determinism alone does not identify the two queries. -/
theorem c7_counterexample :
    (evaluate oracleHalf inpHalf).1 = Except.ok resHalf ∧
    inpHalf.isentropicEfficiency_percent = some 100 ∧
    resHalf.h2a = resHalf.h2s ∧ resHalf.t2a_k ≠ resHalf.t2s_k := by
  refine ⟨?_, rfl, rfl, by norm_num [resHalf]⟩
  norm_num [evaluate, resolveInlet, resolveOutlet, stateCalc, resolveMassFlow, seqStep,
    runQuery, oracleHalf, inpHalf, baseInputs, resHalf, fluidMapValues, kelvinOffset]

/-- C7 amended: at efficiency 1 the actual outlet enthalpy equals the
isentropic one exactly; and the actual outlet temperature and entropy agree
with the isentropic outlet temperature and the inlet entropy whenever the
oracle answers the (P2, H2a) state description consistently with the
(P2, S1) one — determinism alone guarantees only H2a = H2s. -/
theorem c7_unit_efficiency_state (cp : Oracle) (inp : Inputs) (r : CycleResult)
    (h : (evaluate cp inp).1 = Except.ok r)
    (he : inp.isentropicEfficiency_percent = some 100) :
    r.h2a = r.h2s ∧
    (cp.propsSI "T" "P" r.p2_pa "H" r.h2a inp.fluidName =
        cp.propsSI "T" "P" r.p2_pa "S" r.s1 inp.fluidName → r.t2a_k = r.t2s_k) ∧
    (cp.propsSI "S" "P" r.p2_pa "H" r.h2a inp.fluidName = some r.s1 → r.s2a = r.s1) := by
  obtain ⟨p1, t1, p2, ep, hf, hin, hout, he2, heta, hplt, hs⟩ := evaluate_fst_ok h
  obtain ⟨hr1, hr2, hr3, hH1, hS1, hD1, hPh1, hH2s, hT2s, hD2s, hPh2s, hh2a, hT2a, hS2a,
    hD2a, hPh2a, hmf, hpw, hvf⟩ := stateCalc_ok hs
  have hep : ep = 100 := Option.some.inj (he2.symm.trans he)
  have hh : r.h2a = r.h2s := by rw [hh2a, hep]; ring
  have hT2a2 : cp.propsSI "T" "P" r.p2_pa "H" r.h2a inp.fluidName = some r.t2a_k := by
    rw [hr3]; exact hT2a
  have hT2s2 : cp.propsSI "T" "P" r.p2_pa "S" r.s1 inp.fluidName = some r.t2s_k := by
    rw [hr3]; exact hT2s
  have hS2a2 : cp.propsSI "S" "P" r.p2_pa "H" r.h2a inp.fluidName = some r.s2a := by
    rw [hr3]; exact hS2a
  refine ⟨hh, ?_, ?_⟩
  · intro hcons
    exact Option.some.inj (hT2a2.symm.trans (hcons.trans hT2s2))
  · intro hcons
    exact Option.some.inj (hS2a2.symm.trans hcons)

/-- Evaluation of the unit-efficiency inputs against the constant-2 oracle
also yields baseResult, since the constant oracle makes the enthalpy drop
zero. -/
theorem evaluate_unitEff : (evaluate (oracleConst 2) inpUnitEff).1 = Except.ok baseResult := by
  norm_num [evaluate, resolveInlet, resolveOutlet, stateCalc, resolveMassFlow, seqStep,
    runQuery, oracleConst, inpUnitEff, baseInputs, baseResult, fluidMapValues, kelvinOffset]

/-- C7 witness: against the thermodynamically consistent constant oracle,
the unit-efficiency evaluation has equal actual and isentropic outlet
states. -/
theorem c7_witness :
    baseResult.h2a = baseResult.h2s ∧ baseResult.t2a_k = baseResult.t2s_k ∧
    baseResult.s2a = baseResult.s1 := by
  obtain ⟨h1, h2, h3⟩ := c7_unit_efficiency_state (oracleConst 2) inpUnitEff baseResult
    evaluate_unitEff rfl
  exact ⟨h1, h2 rfl, h3 rfl⟩

/-- C8 counterexample: in the gas fluid category a two-phase point with
quality 0 is displayed as the not-applicable sentinel, not as the
saturated-liquid boundary label the claim requires for every displayed
state point. -/
theorem c8_counterexample :
    formatPhase Tab.gas 3 0 = QualityDisplay.notApplicable ∧
    formatPhase Tab.gas 3 0 ≠ QualityDisplay.satLiquid := by
  constructor <;> simp [formatPhase]

/-- C8 amended: a numeric quality is displayed only for a two-phase point
outside the gas category; the gas category always displays the
not-applicable sentinel; and for non-gas categories a two-phase quality
within 1e-9 of 0 or of 1 is displayed as the saturated-liquid or
saturated-vapor boundary label rather than as a number. -/
theorem c8_quality_display_rules (tab : Tab) (p q : ℚ) :
    (∀ v, formatPhase tab p q = QualityDisplay.numericQuality v → p = 3 ∧ tab ≠ Tab.gas) ∧
    (tab = Tab.gas → formatPhase tab p q = QualityDisplay.notApplicable) ∧
    (tab ≠ Tab.gas → p = 3 → -1 / 1000000000 < q → q < 1 / 1000000000 →
      formatPhase tab p q = QualityDisplay.satLiquid) ∧
    (tab ≠ Tab.gas → p = 3 → 1 - 1 / 1000000000 < q → q < 1 + 1 / 1000000000 →
      formatPhase tab p q = QualityDisplay.satVapor) := by
  refine ⟨?_, ?_, ?_, ?_⟩
  · intro v hv
    unfold formatPhase at hv
    split_ifs at hv with h1 h2 h3 h4 h5 h6 h7 h8
    all_goals simp_all
  · intro hg
    simp [formatPhase, hg]
  · intro hg hp hlo hhi
    subst hp
    unfold formatPhase
    rw [if_neg hg, if_neg (show ¬(3 : ℚ) = 0 by norm_num),
      if_neg (show ¬(3 : ℚ) = 5 by norm_num), if_pos rfl, if_pos ⟨hlo, hhi⟩]
  · intro hg hp hlo hhi
    subst hp
    unfold formatPhase
    rw [if_neg hg, if_neg (show ¬(3 : ℚ) = 0 by norm_num),
      if_neg (show ¬(3 : ℚ) = 5 by norm_num), if_pos rfl]
    have hn : ¬(-1 / 1000000000 < q ∧ q < 1 / 1000000000) := by
      rintro ⟨-, h2⟩
      linarith
    rw [if_neg hn, if_pos ⟨hlo, hhi⟩]

/-- C8 witness: concrete boundary and sentinel cases of the display rules. -/
theorem c8_witness :
    formatPhase Tab.orc 3 0 = QualityDisplay.satLiquid ∧
    formatPhase Tab.orc 3 1 = QualityDisplay.satVapor ∧
    formatPhase Tab.gas 5 (-1) = QualityDisplay.notApplicable := by
  refine ⟨(c8_quality_display_rules Tab.orc 3 0).2.2.1 (by decide) rfl (by norm_num) (by norm_num),
    (c8_quality_display_rules Tab.orc 3 1).2.2.2 (by decide) rfl (by norm_num) (by norm_num),
    (c8_quality_display_rules Tab.gas 5 (-1)).2.1 rfl⟩

/-- A display state with every result cell cleared. -/
def clearedDisplay : DisplayState := ⟨none, none, none, none, none, none⟩

/-- C9 witness: at the swapped-pressure inputs the handler leaves the
cleared display untouched and surfaces the pressure-order error. -/
theorem c9_witness :
    handleCalculation (some (oracleConst 2)) inpSwap clearedDisplay =
      (clearedDisplay, Status.calcError (CalcError.pressureOrder 2000000 400000),
        (evaluate (oracleConst 2) inpSwap).2) :=
  c9_evaluation_all_or_nothing (oracleConst 2) inpSwap clearedDisplay
    (CalcError.pressureOrder 2000000 400000)
    (by norm_num [evaluate, resolveInlet, resolveOutlet, seqStep, inpSwap, baseInputs,
      fluidMapValues, kelvinOffset])
